import Mathlib

/-!
Shallow embedding of the amaragame platform core: the game registry
(src/js/registry.js), the profile store (src/js/profile.js), the progress
store (src/js/progress.js), the storage adapter (src/js/storage.js) and the
screen-transition lifecycle of the app shell (src/js/app.js).

JS `Map`s and plain JSON objects are modelled as association lists that keep
insertion order; `Map.set` / property assignment replaces an existing key in
place and appends a new key at the end, exactly as in the source runtime.
Async functions over the storage layer become explicit state passing over a
`Store` value; the `LocalStorageAdapter` catches every exception and resolves
`false` (save) or `null` (load), so the embedded operations are total and a
save failure is modelled by the `saveFails` flag of the store.
-/

namespace Amara

/-- JS object / Map lookup on an insertion-ordered association list. -/
def mapGet {α : Type} (m : List (String × α)) (k : String) : Option α :=
  match m with
  | [] => none
  | e :: rest => if e.1 = k then some e.2 else mapGet rest k

/-- JS `Map.set` / object property assignment: replace in place when the key
exists, append at the end otherwise (insertion order is preserved). -/
def mapSet {α : Type} (m : List (String × α)) (k : String) (v : α) :
    List (String × α) :=
  if m.any (fun e => e.1 = k) then
    m.map (fun e => if e.1 = k then (k, v) else e)
  else
    m ++ [(k, v)]

/- ───────────────────────── Game registry (registry.js) ───────────────────── -/

/-- A registry category: `{ id, label, icon, color }`. -/
structure Category where
  id : String
  label : String
  icon : String
  color : String
deriving DecidableEq, Repr

/-- A game descriptor as passed to `GameRegistry.register`.  The `id` field is
`Option String` because the validation guard tests JS truthiness of
`config.id` (absent or empty string is falsy); the `init` and `destroy`
function references are modelled by their presence (a function value is always
truthy), the remaining fields are the metadata of the game-config contract. -/
structure GameDescriptor where
  id : Option String
  title : String
  category : String
  thumbnail : String
  description : String
  ageRange : Nat × Nat
  hasInit : Bool
  hasDestroy : Bool
deriving DecidableEq, Repr

/-- The registry's module-level state: the `categories` map and `games` map. -/
structure RegState where
  categories : List (String × Category)
  games : List (String × GameDescriptor)
deriving DecidableEq, Repr

/-- The four categories the registry module initialises at load time. -/
def initialCategories : List (String × Category) :=
  [("counting", ⟨"counting", "Counting", "🔢", "#FF9F43"⟩),
   ("reading",  ⟨"reading",  "Reading",  "📖", "#54A0FF"⟩),
   ("thinking", ⟨"thinking", "Thinking", "🧩", "#5F27CD"⟩),
   ("feelings", ⟨"feelings", "Feelings", "💛", "#FF6B6B"⟩)]

/-- Registry state at module load: the four builtin categories, no games. -/
def initialRegistry : RegState := ⟨initialCategories, []⟩

/-- Truthiness of `config.id`: `!config.id` holds when the field is absent or
the empty string. -/
def jsFalsyStr (s : Option String) : Bool :=
  match s with
  | none => true
  | some v => v == ""

/-- The guard of `GameRegistry.register`:
`!config.id || !config.init || !config.destroy`. -/
def invalidDescriptor (c : GameDescriptor) : Bool :=
  jsFalsyStr c.id || !c.hasInit || !c.hasDestroy

/-- `GameRegistry.register(config)`: throws (returns an error message, state
unchanged) when the guard fires, otherwise `games.set(config.id, config)`. -/
def registerGame (st : RegState) (c : GameDescriptor) :
    RegState × Option String :=
  if invalidDescriptor c then
    (st, some ("Game registration requires id, init, destroy. Got: " ++
      c.id.getD "undefined"))
  else
    ({ st with games := mapSet st.games (c.id.getD "") c }, none)

/-- `GameRegistry.get(id)`: `games.get(id) || null`. -/
def getGame (st : RegState) (i : String) : Option GameDescriptor :=
  mapGet st.games i

/-- `GameRegistry.getAll()`: all descriptors in insertion order. -/
def getAllGames (st : RegState) : List GameDescriptor :=
  st.games.map Prod.snd

/-- `GameRegistry.getByCategory(categoryId)`: filter of `getAll()`. -/
def getByCategory (st : RegState) (cid : String) : List GameDescriptor :=
  (getAllGames st).filter (fun g => g.category == cid)

/-- `GameRegistry.getCategories()`: categories with at least one registered
game, in category-insertion order. -/
def getCategories (st : RegState) : List Category :=
  (st.categories.map Prod.snd).filter
    (fun cat => decide (0 < (getByCategory st cat.id).length))

/-- `GameRegistry.addCategory(id, label, icon, color)`. -/
def addCategory (st : RegState) (i label icon color : String) : RegState :=
  { st with categories := mapSet st.categories i ⟨i, label, icon, color⟩ }

/- ─────────────────── Storage adapter (storage.js) ────────────────────────── -/

/-- The storage adapter's backing store for one persisted document key.
`doc` is the parsed document currently stored under the key (`none` when
nothing is stored or the load failed); `saveFails` says whether
`localStorage.setItem` throws, in which case the adapter catches the
exception and resolves `false`. -/
structure Store (α : Type) where
  doc : Option α
  saveFails : Bool
deriving DecidableEq, Repr

/-- `LocalStorageAdapter.save`: writes and resolves `true`, or catches the
exception, leaves the stored document unchanged and resolves `false`.  No
exception ever escapes the adapter. -/
def Store.save {α : Type} (st : Store α) (d : α) : Store α × Bool :=
  if st.saveFails then (st, false) else ({ st with doc := some d }, true)

/-- `LocalStorageAdapter.load`: the stored document or `null`. -/
def Store.load {α : Type} (st : Store α) : Option α :=
  st.doc

/- ─────────────────── Profile store (profile.js) ──────────────────────────── -/

/-- A child profile `{ id, name, avatar, createdAt }`. -/
structure Profile where
  id : String
  name : String
  avatar : String
  createdAt : String
deriving DecidableEq, Repr

/-- The document stored under the `profiles` key:
`{ version: 1, active, profiles }`. -/
structure ProfilesData where
  version : Nat
  active : Option String
  profiles : List (String × Profile)
deriving DecidableEq, Repr

/-- `loadData()` in profile.js: the stored document, or the empty default
`{ version: 1, active: null, profiles: {} }` when `load` returns `null`. -/
def loadProfilesData (st : Store ProfilesData) : ProfilesData :=
  (st.load).getD ⟨1, none, []⟩

/-- `ProfileManager.getActiveProfile()`: `null` unless the active pointer is
set (truthy) and points at an existing profile. -/
def getActiveProfile (st : Store ProfilesData) : Option Profile :=
  let d := loadProfilesData st
  match d.active with
  | none => none
  | some a => if a == "" then none else mapGet d.profiles a

/-- `ProfileManager.createProfile(name, avatar)`.  The generated id (from
`generateId()`, a clock-and-randomness string) and the creation timestamp are
passed in as oracle parameters.  The save result is not inspected: the
profile is returned unconditionally. -/
def createProfile (st : Store ProfilesData)
    (freshId nm avatar now : String) : Store ProfilesData × Profile :=
  let d := loadProfilesData st
  let p : Profile := ⟨freshId, nm, avatar, now⟩
  let d' : ProfilesData :=
    { d with profiles := mapSet d.profiles freshId p, active := some freshId }
  let r := st.save d'
  (r.1, p)

/-- `ProfileManager.getAllProfiles()`: `Object.values(data.profiles)`. -/
def getAllProfiles (st : Store ProfilesData) : List Profile :=
  (loadProfilesData st).profiles.map Prod.snd

/-- `ProfileManager.setActiveProfile(id)`: `true` and a save when the id
exists, `false` and no write otherwise. -/
def setActiveProfile (st : Store ProfilesData) (i : String) :
    Store ProfilesData × Bool :=
  let d := loadProfilesData st
  match mapGet d.profiles i with
  | some _ =>
      let r := st.save { d with active := some i }
      (r.1, true)
  | none => (st, false)

/-- The `updates` argument of `ProfileManager.updateProfile`: a partial
profile, merged with `Object.assign` field by field (including `id`). -/
structure ProfileUpdate where
  id : Option String := none
  name : Option String := none
  avatar : Option String := none
  createdAt : Option String := none
deriving DecidableEq, Repr

/-- `Object.assign(profile, updates)` over the four profile fields. -/
def mergeProfile (p : Profile) (u : ProfileUpdate) : Profile :=
  ⟨u.id.getD p.id, u.name.getD p.name, u.avatar.getD p.avatar,
   u.createdAt.getD p.createdAt⟩

/-- `ProfileManager.updateProfile(id, updates)`: merge-and-save when the id
exists, `null` and no write otherwise. -/
def updateProfile (st : Store ProfilesData) (i : String) (u : ProfileUpdate) :
    Store ProfilesData × Option Profile :=
  let d := loadProfilesData st
  match mapGet d.profiles i with
  | some p =>
      let p' := mergeProfile p u
      let r := st.save { d with profiles := mapSet d.profiles i p' }
      (r.1, some p')
  | none => (st, none)

/- ─────────────────── Progress store (progress.js) ────────────────────────── -/

/-- A per-(profile, game) progress record.  `custom` is the opaque
game-owned mapping; `lastPlayed` is an ISO timestamp or `null`. -/
structure ProgressRec where
  sessionsPlayed : Nat
  currentLevel : Nat
  bestLevel : Nat
  lastPlayed : Option String
  custom : List (String × String)
deriving DecidableEq, Repr

/-- `makeDefault()` in progress.js. -/
def makeDefault : ProgressRec :=
  ⟨0, 1, 1, none, []⟩

/-- The document stored under the `progress` key:
`{ version: 1, profiles: { profileId: { gameId: record } } }`. -/
structure ProgressData where
  version : Nat
  profiles : List (String × List (String × ProgressRec))
deriving DecidableEq, Repr

/-- `loadData()` in progress.js: stored document or
`{ version: 1, profiles: {} }`. -/
def loadProgressData (st : Store ProgressData) : ProgressData :=
  (st.load).getD ⟨1, []⟩

/-- `ProgressManager.getGameProgress(profileId, gameId)`:
`data.profiles?.[profileId]?.[gameId] || makeDefault()`.  A pure read — the
source performs no save, so no store is produced. -/
def getGameProgress (st : Store ProgressData) (p g : String) : ProgressRec :=
  match mapGet (loadProgressData st).profiles p with
  | none => makeDefault
  | some m => (mapGet m g).getD makeDefault

/-- The raw stored entry for a (profile, game) pair, as a direct load of the
document would show it (no defaulting). -/
def rawEntry (st : Store ProgressData) (p g : String) : Option ProgressRec :=
  match mapGet (loadProgressData st).profiles p with
  | none => none
  | some m => mapGet m g

/-- The `updates` argument of `updateGameProgress`: a partial record, merged
shallowly by `Object.assign`. -/
structure ProgressUpdate where
  sessionsPlayed : Option Nat := none
  currentLevel : Option Nat := none
  bestLevel : Option Nat := none
  lastPlayed : Option (Option String) := none
  custom : Option (List (String × String)) := none
deriving DecidableEq, Repr

/-- `Object.assign(record, updates)` over the five record fields. -/
def applyUpdate (r : ProgressRec) (u : ProgressUpdate) : ProgressRec :=
  ⟨u.sessionsPlayed.getD r.sessionsPlayed,
   u.currentLevel.getD r.currentLevel,
   u.bestLevel.getD r.bestLevel,
   u.lastPlayed.getD r.lastPlayed,
   u.custom.getD r.custom⟩

/-- `ProgressManager.updateGameProgress(profileId, gameId, updates)`: ensures
the profile and game slots, merges `updates`, stamps `lastPlayed` with the
current timestamp (passed as the `now` oracle), saves, and returns the merged
record.  The save result is not inspected. -/
def updateGameProgress (st : Store ProgressData) (p g : String)
    (u : ProgressUpdate) (now : String) : Store ProgressData × ProgressRec :=
  let d := loadProgressData st
  let perGame := (mapGet d.profiles p).getD []
  let r := (mapGet perGame g).getD makeDefault
  let r' : ProgressRec := { applyUpdate r u with lastPlayed := some now }
  let d' : ProgressData :=
    { d with profiles := mapSet d.profiles p (mapSet perGame g r') }
  let s := st.save d'
  (s.1, r')

/-- A full record viewed as an update: `recordSession` passes the whole
mutated record object to `updateGameProgress`, so every field is present. -/
def fullUpdate (r : ProgressRec) : ProgressUpdate :=
  ⟨some r.sessionsPlayed, some r.currentLevel, some r.bestLevel,
   some r.lastPlayed, some r.custom⟩

/-- `ProgressManager.recordSession(profileId, gameId, level)`: read (with
default), increment `sessionsPlayed`, set `currentLevel`, raise `bestLevel`,
then `updateGameProgress` with the whole record. -/
def recordSession (st : Store ProgressData) (p g : String) (level : Nat)
    (now : String) : Store ProgressData × ProgressRec :=
  let r := getGameProgress st p g
  let r1 : ProgressRec :=
    { r with
      sessionsPlayed := r.sessionsPlayed + 1,
      currentLevel := level,
      bestLevel := if level > r.bestLevel then level else r.bestLevel }
  updateGameProgress st p g (fullUpdate r1) now

/-- `ProgressManager.getAllProgress(profileId)`. -/
def getAllProgress (st : Store ProgressData) (p : String) :
    List (String × ProgressRec) :=
  (mapGet (loadProgressData st).profiles p).getD []

/- ─────────────── Session controller lifecycle (app.js) ───────────────────── -/

/-- Observable lifecycle events of the app shell: a call to a game module's
`destroy()` or `init()` entry point, identified by the game's id. -/
inductive UiEvent where
  | destroy (g : String)
  | mount (g : String)
deriving DecidableEq, Repr

/-- The shell's mutable state: the `activeGame` reference (the id of the
currently mounted game module, or `none`). -/
structure AppState where
  activeGame : Option String
deriving DecidableEq, Repr

/-- `showScreen(renderFn)` in app.js: if a game module reference is held, call
its `destroy()` and clear the reference — synchronously, before the screen
swap — then run the render function.  The render function receives the shell
state and yields the new state plus the lifecycle events it emits. -/
def showScreen (render : AppState → AppState × List UiEvent) (s : AppState) :
    AppState × List UiEvent :=
  match s.activeGame with
  | some g =>
      let r := render { s with activeGame := none }
      (r.1, UiEvent.destroy g :: r.2)
  | none => render s

/-- `launchGame(gameId)` in app.js: look the game up in the registry; a miss
returns silently; a hit transitions via `showScreen` with a render function
that sets `activeGame` and calls the module's `init`. -/
def launchGame (reg : RegState) (gid : String) (s : AppState) :
    AppState × List UiEvent :=
  match mapGet reg.games gid with
  | none => (s, [])
  | some _ =>
      showScreen
        (fun s1 => ({ s1 with activeGame := some gid }, [UiEvent.mount gid])) s

/- ──────────── Spec-side definition for the C2 comparison ─────────────────── -/

/-- The spec's `PersistenceError`. -/
inductive PersistenceError where
  | saveFailed
deriving DecidableEq, Repr

/-- Follows the spec's words, for comparison with `createProfile` as embedded
from the source: "`createProfile(name, avatar)`: generates a fresh id,
inserts, sets it active, persists, returns the new Profile.  Fails with
`PersistenceError` if the underlying save fails (propagated, not retried)." -/
def createProfileSpec (st : Store ProfilesData)
    (freshId nm avatar now : String) :
    Except PersistenceError (Store ProfilesData × Profile) :=
  let d := loadProfilesData st
  let p : Profile := ⟨freshId, nm, avatar, now⟩
  let d' : ProfilesData :=
    { d with profiles := mapSet d.profiles freshId p, active := some freshId }
  let r := st.save d'
  if r.2 then Except.ok (r.1, p) else Except.error PersistenceError.saveFailed

/- ─────────────────── Concrete fixtures for witnesses ─────────────────────── -/

/-- A valid demo descriptor in the `counting` category. -/
def demoGame (i : String) : GameDescriptor :=
  ⟨some i, "Demo", "counting", "T", "D", (4, 6), true, true⟩

/-- An invalid demo descriptor: no id, no `destroy` entry point. -/
def badGame : GameDescriptor :=
  ⟨none, "Bad", "counting", "T", "D", (4, 6), true, false⟩

/-- A registry holding the two demo games `ga` and `gb`. -/
def demoRegistry : RegState :=
  (registerGame (registerGame initialRegistry (demoGame "ga")).1
    (demoGame "gb")).1

/-- A profiles store holding two profiles with `p1` active, saves working. -/
def demoProfilesStore : Store ProfilesData :=
  ⟨some ⟨1, some "p1",
    [("p1", ⟨"p1", "Amara", "U", "t0"⟩), ("p2", ⟨"p2", "Bea", "V", "t1"⟩)]⟩,
   false⟩

/-- An empty progress store whose saves work. -/
def demoProgressStore : Store ProgressData :=
  ⟨none, false⟩

/- ───────────────────── Lemmas about the map model ────────────────────────── -/

theorem mapGet_eq_none_of_not_any {α : Type} {m : List (String × α)}
    {k : String} (h : m.any (fun e => e.1 = k) = false) : mapGet m k = none := by
  induction m with
  | nil => rfl
  | cons e rest ih =>
      simp only [List.any_cons, Bool.or_eq_false_iff] at h
      simp only [mapGet]
      rw [if_neg (by simpa using h.1)]
      exact ih h.2

theorem mapGet_append_of_none {α : Type} {m : List (String × α)}
    {k : String} (l : List (String × α)) (h : mapGet m k = none) :
    mapGet (m ++ l) k = mapGet l k := by
  induction m with
  | nil => rfl
  | cons e rest ih =>
      simp only [mapGet] at h
      by_cases he : e.1 = k
      · rw [if_pos he] at h; exact absurd h (by simp)
      · rw [if_neg he] at h
        simpa only [List.cons_append, mapGet, if_neg he] using ih h

theorem mapGet_replace_self {α : Type} {m : List (String × α)} {k : String}
    (v : α) (h : m.any (fun e => e.1 = k) = true) :
    mapGet (m.map (fun e => if e.1 = k then (k, v) else e)) k = some v := by
  induction m with
  | nil => simp at h
  | cons e rest ih =>
      by_cases he : e.1 = k
      · simp [mapGet, he]
      · simp only [List.any_cons, decide_eq_true_eq, Bool.or_eq_true_iff] at h
        rcases h with h | h
        · exact absurd h he
        · simp [mapGet, he, ih h]

theorem mapGet_replace_ne {α : Type} {m : List (String × α)} {k k' : String}
    (v : α) (h : k' ≠ k) :
    mapGet (m.map (fun e => if e.1 = k then (k, v) else e)) k' = mapGet m k' := by
  induction m with
  | nil => rfl
  | cons e rest ih =>
      by_cases he : e.1 = k
      · have he2 : ¬ e.1 = k' := by rw [he]; exact fun hk => h hk.symm
        have hk2 : ¬ k = k' := fun hk => h hk.symm
        simp [mapGet, he, he2, hk2, ih]
      · by_cases h2 : e.1 = k'
        · simp only [List.map_cons, if_neg he, mapGet, if_pos h2]
        · simp only [List.map_cons, if_neg he, mapGet, if_neg h2]
          exact ih

theorem mapGet_append_single_ne {α : Type} (m : List (String × α))
    {k k' : String} (v : α) (h : ¬ k = k') :
    mapGet (m ++ [(k, v)]) k' = mapGet m k' := by
  induction m with
  | nil => simp [mapGet, h]
  | cons e rest ih =>
      by_cases h2 : e.1 = k'
      · simp [mapGet, h2]
      · simp [mapGet, h2, ih]

theorem mapGet_mapSet_self {α : Type} (m : List (String × α)) (k : String)
    (v : α) : mapGet (mapSet m k v) k = some v := by
  unfold mapSet
  by_cases h : m.any (fun e => e.1 = k) = true
  · rw [if_pos h]; exact mapGet_replace_self v h
  · rw [if_neg h]
    rw [mapGet_append_of_none _
      (mapGet_eq_none_of_not_any (Bool.eq_false_iff.mpr h))]
    simp [mapGet]

theorem mapGet_mapSet_ne {α : Type} (m : List (String × α)) {k k' : String}
    (v : α) (h : k' ≠ k) : mapGet (mapSet m k v) k' = mapGet m k' := by
  unfold mapSet
  by_cases ha : m.any (fun e => e.1 = k) = true
  · rw [if_pos ha]; exact mapGet_replace_ne v h
  · rw [if_neg ha]
    exact mapGet_append_single_ne m v (fun hk => h hk.symm)

theorem mem_values_mapSet {α : Type} (m : List (String × α)) (k : String)
    (v : α) : v ∈ (mapSet m k v).map Prod.snd := by
  unfold mapSet
  by_cases h : m.any (fun e => e.1 = k) = true
  · rw [if_pos h]
    rcases List.any_eq_true.mp h with ⟨e, he, hk⟩
    refine List.mem_map.mpr ⟨(k, v), List.mem_map.mpr ⟨e, he, ?_⟩, rfl⟩
    simp only [if_pos (of_decide_eq_true hk)]
  · rw [if_neg h]; simp

/- ─────────────────────── Registry claims (C3, C8, C5) ────────────────────── -/

/-- C3: a descriptor in which id, init (mount) or destroy (unmount) is missing
is rejected by `registerGame` with a validation error and the registry is
unchanged; a descriptor with all three present (the id present and nonempty,
matching the source's truthiness guard) is inserted or overwritten under its
id, leaving every other key unchanged. -/
theorem c3_registerGame_validation :
    ∀ (st : RegState) (c : GameDescriptor),
      ((c.id = none ∨ c.id = some "" ∨ c.hasInit = false ∨
          c.hasDestroy = false) →
        (registerGame st c).1 = st ∧ (registerGame st c).2.isSome = true) ∧
      (∀ i, c.id = some i → i ≠ "" → c.hasInit = true → c.hasDestroy = true →
        (registerGame st c).2 = none ∧
        getGame (registerGame st c).1 i = some c ∧
        ∀ j, j ≠ i → getGame (registerGame st c).1 j = getGame st j) := by
  intro st c
  constructor
  · intro h
    have hv : invalidDescriptor c = true := by
      rcases h with h | h | h | h <;>
        simp [invalidDescriptor, jsFalsyStr, h]
    simp [registerGame, hv]
  · intro i hid hne hinit hdes
    have hv : invalidDescriptor c = false := by
      simp [invalidDescriptor, jsFalsyStr, hid, hinit, hdes, hne]
    refine ⟨by simp [registerGame, hv], ?_, ?_⟩
    · simp only [registerGame, hv, Bool.false_eq_true, if_neg, getGame, hid,
        Option.getD_some, if_false]
      exact mapGet_mapSet_self st.games i c
    · intro j hj
      simp only [registerGame, hv, Bool.false_eq_true, if_neg, getGame, hid,
        Option.getD_some, if_false]
      exact mapGet_mapSet_ne st.games c hj

/-- C3 witness: the invalid demo descriptor is rejected leaving the registry
unchanged, and a valid demo descriptor is registered and retrievable. -/
theorem c3_registerGame_validation_witness :
    (registerGame initialRegistry badGame).1 = initialRegistry ∧
    getGame (registerGame initialRegistry (demoGame "g1")).1 "g1" =
      some (demoGame "g1") := by
  refine ⟨((c3_registerGame_validation initialRegistry badGame).1
    (Or.inl rfl)).1, ?_⟩
  exact (((c3_registerGame_validation initialRegistry (demoGame "g1")).2)
    "g1" rfl (by decide) rfl rfl).2.1

/-- C8: registering a valid descriptor and then looking its id up returns a
descriptor equal to the one registered; looking up an id that is not in the
games map returns the `null` sentinel (`none`), and the lookup is a total
function, so it never throws. -/
theorem c8_register_get_roundtrip :
    ∀ (st : RegState) (c : GameDescriptor) (i : String),
      (c.id = some i → i ≠ "" → c.hasInit = true → c.hasDestroy = true →
        getGame (registerGame st c).1 i = some c) ∧
      (mapGet st.games i = none → getGame st i = none) := by
  intro st c i
  constructor
  · intro hid hne hinit hdes
    have hv : invalidDescriptor c = false := by
      simp [invalidDescriptor, jsFalsyStr, hid, hinit, hdes, hne]
    simp only [registerGame, hv, Bool.false_eq_true, if_neg, getGame, hid,
      Option.getD_some, if_false]
    exact mapGet_mapSet_self st.games i c
  · intro h
    simpa [getGame] using h

/-- C8 witness: `registerGame` then `getGame` round-trips on the demo
descriptor `g2`, and an unregistered id resolves to the sentinel. -/
theorem c8_register_get_roundtrip_witness :
    getGame (registerGame initialRegistry (demoGame "g2")).1 "g2" =
      some (demoGame "g2") ∧
    getGame initialRegistry "nope" = none := by
  refine ⟨(c8_register_get_roundtrip initialRegistry (demoGame "g2") "g2").1
    rfl (by decide) rfl rfl, ?_⟩
  exact (c8_register_get_roundtrip initialRegistry (demoGame "g2") "nope").2
    rfl

/-- C5: `getCategories` returns exactly the categories that have at least one
registered game (membership characterisation), as a sublist of the category
map's values it preserves category-registration order, and a category with no
games appears after the first game of that category is registered. -/
theorem c5_populated_categories :
    ∀ (st : RegState) (c : Category),
      (c ∈ getCategories st ↔
        c ∈ st.categories.map Prod.snd ∧ getByCategory st c.id ≠ []) ∧
      List.Sublist (getCategories st) (st.categories.map Prod.snd) ∧
      (∀ d, (registerGame st d).2 = none → d.category = c.id →
        c ∈ st.categories.map Prod.snd →
        c ∈ getCategories (registerGame st d).1) := by
  intro st c
  have hmem : ∀ (st' : RegState) (c' : Category),
      c' ∈ getCategories st' ↔
        c' ∈ st'.categories.map Prod.snd ∧ getByCategory st' c'.id ≠ [] := by
    intro st' c'
    unfold getCategories
    rw [List.mem_filter]
    constructor
    · rintro ⟨h1, h2⟩
      exact ⟨h1, List.length_pos.mp (of_decide_eq_true h2)⟩
    · rintro ⟨h1, h2⟩
      exact ⟨h1, decide_eq_true (List.length_pos.mpr h2)⟩
  refine ⟨hmem st c, List.filter_sublist _, ?_⟩
  intro d hok hcat hc
  have hv : invalidDescriptor d = false := by
    by_cases h : invalidDescriptor d = true
    · rw [registerGame, if_pos h] at hok
      exact absurd hok (by simp)
    · exact Bool.eq_false_iff.mpr h
  have hst : (registerGame st d).1 =
      { st with games := mapSet st.games (d.id.getD "") d } := by
    simp [registerGame, hv]
  rw [hst]
  refine (hmem _ c).mpr ⟨hc, ?_⟩
  have hd : d ∈ getByCategory
      { st with games := mapSet st.games (d.id.getD "") d } c.id := by
    refine List.mem_filter.mpr ⟨?_, ?_⟩
    · exact mem_values_mapSet st.games (d.id.getD "") d
    · exact beq_iff_eq.mpr hcat
  exact List.ne_nil_of_mem hd

/-- C5 witness: before any registration the `counting` category is absent from
`getCategories`; after registering the demo game it appears. -/
theorem c5_populated_categories_witness :
    (⟨"counting", "Counting", "🔢", "#FF9F43"⟩ : Category) ∉
      getCategories initialRegistry ∧
    (⟨"counting", "Counting", "🔢", "#FF9F43"⟩ : Category) ∈
      getCategories (registerGame initialRegistry (demoGame "g3")).1 := by
  constructor
  · intro h
    have := ((c5_populated_categories initialRegistry
      ⟨"counting", "Counting", "🔢", "#FF9F43"⟩).1.mp h).2
    exact this (by decide)
  · exact (c5_populated_categories initialRegistry
      ⟨"counting", "Counting", "🔢", "#FF9F43"⟩).2.2 (demoGame "g3")
      (by decide) (by decide) (by decide)

/- ─────────────────── Session controller claim (C1) ───────────────────────── -/

/-- C1: on every screen transition, if a game module reference is held its
`destroy()` (unmount) runs synchronously, exactly once, before the render
function constructs the new screen — the event trace of `showScreen` starts
with the destroy event and the render sees the cleared reference; in
particular launching game `a` and then game `b` without an explicit exit
yields the trace `[mount a, destroy a, mount b]`: exactly one destroy of `a`,
placed before `b`'s mount, and afterwards only `b` is held. -/
theorem c1_single_active_game :
    (∀ (s : AppState) (g : String)
        (render : AppState → AppState × List UiEvent),
      s.activeGame = some g →
        showScreen render s =
          ((render { s with activeGame := none }).1,
           UiEvent.destroy g :: (render { s with activeGame := none }).2)) ∧
    (∀ (reg : RegState) (a b : String) (s : AppState),
      (mapGet reg.games a).isSome = true →
      (mapGet reg.games b).isSome = true →
      s.activeGame = none →
        (launchGame reg a s).2 ++ (launchGame reg b (launchGame reg a s).1).2 =
          [UiEvent.mount a, UiEvent.destroy a, UiEvent.mount b] ∧
        (launchGame reg b (launchGame reg a s).1).1.activeGame = some b ∧
        ((launchGame reg a s).2 ++
          (launchGame reg b (launchGame reg a s).1).2).count
            (UiEvent.destroy a) = 1) := by
  constructor
  · intro s g render hg
    simp [showScreen, hg]
  · intro reg a b s ha hb hs
    obtain ⟨da, hda⟩ := Option.isSome_iff_exists.mp ha
    obtain ⟨db, hdb⟩ := Option.isSome_iff_exists.mp hb
    have h1 : launchGame reg a s =
        ({ activeGame := some a }, [UiEvent.mount a]) := by
      simp [launchGame, showScreen, hda, hs]
    have h2 : launchGame reg b ({ activeGame := some a } : AppState) =
        ({ activeGame := some b }, [UiEvent.destroy a, UiEvent.mount b]) := by
      simp [launchGame, showScreen, hdb]
    rw [h1, h2]
    refine ⟨rfl, rfl, ?_⟩
    simp [List.count_cons, List.count_nil]

/-- C1 witness: in the demo registry, launching `ga` and then `gb` from a
fresh shell produces the trace mount ga, destroy ga, mount gb, with exactly
one destroy of `ga`, and afterwards `gb` is the only held module; moreover a
transition from a state holding `ga` emits the destroy first. -/
theorem c1_single_active_game_witness :
    showScreen (fun s1 => (s1, [])) ⟨some "ga"⟩ =
      (⟨none⟩, [UiEvent.destroy "ga"]) ∧
    (launchGame demoRegistry "ga" ⟨none⟩).2 ++
      (launchGame demoRegistry "gb"
        (launchGame demoRegistry "ga" ⟨none⟩).1).2 =
      [UiEvent.mount "ga", UiEvent.destroy "ga", UiEvent.mount "gb"] ∧
    (launchGame demoRegistry "gb"
      (launchGame demoRegistry "ga" ⟨none⟩).1).1.activeGame = some "gb" := by
  refine ⟨c1_single_active_game.1 ⟨some "ga"⟩ "ga" (fun s1 => (s1, [])) rfl,
    ?_, ?_⟩
  · exact (c1_single_active_game.2 demoRegistry "ga" "gb" ⟨none⟩
      (by decide) (by decide) rfl).1
  · exact (c1_single_active_game.2 demoRegistry "ga" "gb" ⟨none⟩
      (by decide) (by decide) rfl).2.1

/- ──────────────── Profile store claims (C2, C7, C9, C10) ─────────────────── -/

/-- C2 counterexample: with a store whose save fails, the spec-worded
`createProfileSpec` fails with `PersistenceError`, but the source's
`createProfile` ignores the adapter's `false` result and returns the new
profile normally with nothing persisted — no error reaches the caller, so the
claim "createProfile fails with a PersistenceError that is propagated to the
caller" is false on the code. -/
theorem c2_createProfile_counterexample :
    createProfileSpec ⟨none, true⟩ "p1" "Mia" "A" "t0" =
      Except.error PersistenceError.saveFailed ∧
    createProfile ⟨none, true⟩ "p1" "Mia" "A" "t0" =
      (⟨none, true⟩, ⟨"p1", "Mia", "A", "t0"⟩) := by
  exact ⟨rfl, rfl⟩

/-- C2 amended: `createProfile` builds a profile from the generated id,
inserts it, sets it active, attempts to persist, and returns the new profile;
when the save succeeds the document holds the insertion with the new id
active (and `getActiveProfile` then returns the new profile), and when the
underlying save fails the failure is swallowed at the adapter boundary: the
store is unchanged, no error is signalled, the profile is still returned and
nothing is retried. -/
theorem c2_createProfile_amended :
    ∀ (st : Store ProfilesData) (freshId nm av now : String),
      (createProfile st freshId nm av now).2 = ⟨freshId, nm, av, now⟩ ∧
      (st.saveFails = false →
        (createProfile st freshId nm av now).1.doc =
          some { loadProfilesData st with
                  profiles := mapSet (loadProfilesData st).profiles freshId
                    ⟨freshId, nm, av, now⟩,
                  active := some freshId } ∧
        (freshId ≠ "" →
          getActiveProfile (createProfile st freshId nm av now).1 =
            some ⟨freshId, nm, av, now⟩)) ∧
      (st.saveFails = true →
        (createProfile st freshId nm av now).1 = st) := by
  intro st freshId nm av now
  refine ⟨rfl, ?_, ?_⟩
  · intro hok
    have hdoc : (createProfile st freshId nm av now).1.doc =
        some { loadProfilesData st with
                profiles := mapSet (loadProfilesData st).profiles freshId
                  ⟨freshId, nm, av, now⟩,
                active := some freshId } := by
      simp [createProfile, Store.save, hok]
    refine ⟨hdoc, ?_⟩
    intro hne
    have hb : (freshId == "") = false := beq_eq_false_iff_ne.mpr hne
    simp only [getActiveProfile, loadProfilesData, Store.load, hdoc,
      Option.getD_some, hb, Bool.false_eq_true, if_false]
    exact mapGet_mapSet_self (loadProfilesData st).profiles freshId
      ⟨freshId, nm, av, now⟩
  · intro hfail
    simp [createProfile, Store.save, hfail]

/-- C2 amended witness: creating `Mia` on the demo store returns the new
profile, which a subsequent `getActiveProfile` also returns. -/
theorem c2_createProfile_amended_witness :
    (createProfile demoProfilesStore "p3" "Mia" "W" "t2").2 =
      ⟨"p3", "Mia", "W", "t2"⟩ ∧
    getActiveProfile (createProfile demoProfilesStore "p3" "Mia" "W" "t2").1 =
      some ⟨"p3", "Mia", "W", "t2"⟩ := by
  refine ⟨(c2_createProfile_amended demoProfilesStore "p3" "Mia" "W" "t2").1,
    ?_⟩
  exact ((c2_createProfile_amended demoProfilesStore "p3" "Mia" "W" "t2").2.1
    rfl).2 (by decide)

/-- C7: `setActiveProfile(id)` returns `true` exactly when the id exists in
the stored profile collection; on an unknown id it returns `false`, performs
no write (the store is returned unchanged), and a subsequent
`getActiveProfile` returns the same profile as before. -/
theorem c7_setActiveProfile_guard :
    ∀ (st : Store ProfilesData) (i : String),
      ((setActiveProfile st i).2 = true ↔
        (mapGet (loadProfilesData st).profiles i).isSome = true) ∧
      (mapGet (loadProfilesData st).profiles i = none →
        setActiveProfile st i = (st, false) ∧
        getActiveProfile (setActiveProfile st i).1 = getActiveProfile st) := by
  intro st i
  constructor
  · unfold setActiveProfile
    cases h : mapGet (loadProfilesData st).profiles i <;> simp [h]
  · intro h
    have hr : setActiveProfile st i = (st, false) := by
      simp only [setActiveProfile, h]
    exact ⟨hr, by rw [hr]⟩

/-- C7 witness: on the demo store, an existing id succeeds, an unknown id
returns `false` and leaves the active profile as it was. -/
theorem c7_setActiveProfile_guard_witness :
    (setActiveProfile demoProfilesStore "p2").2 = true ∧
    (setActiveProfile demoProfilesStore "p9").2 = false ∧
    getActiveProfile (setActiveProfile demoProfilesStore "p9").1 =
      getActiveProfile demoProfilesStore := by
  refine ⟨(c7_setActiveProfile_guard demoProfilesStore "p2").1.mpr
    (by decide), ?_, ?_⟩
  · have := ((c7_setActiveProfile_guard demoProfilesStore "p9").2
      (by decide)).1
    rw [this]
  · exact ((c7_setActiveProfile_guard demoProfilesStore "p9").2
      (by decide)).2

/-- C9: updating an existing profile's name merges only that field — the
returned and stored profile keep their id, avatar and createdAt, the entry
stays under its key, every other key is untouched — while an unknown id
returns the `null` sentinel and leaves the store unchanged. -/
theorem c9_updateProfile_name_roundtrip :
    ∀ (st : Store ProfilesData) (i nm : String) (p : Profile),
      st.saveFails = false →
      mapGet (loadProfilesData st).profiles i = some p →
      ((updateProfile st i { name := some nm }).2 =
        some ⟨p.id, nm, p.avatar, p.createdAt⟩ ∧
      mapGet (loadProfilesData
          (updateProfile st i { name := some nm }).1).profiles i =
        some ⟨p.id, nm, p.avatar, p.createdAt⟩ ∧
      (∀ k, k ≠ i →
        mapGet (loadProfilesData
            (updateProfile st i { name := some nm }).1).profiles k =
          mapGet (loadProfilesData st).profiles k)) ∧
      (∀ (st' : Store ProfilesData) (j : String) (u : ProfileUpdate),
        mapGet (loadProfilesData st').profiles j = none →
        updateProfile st' j u = (st', none)) := by
  intro st i nm p hok hp
  have hmerge : mergeProfile p { name := some nm } =
      ⟨p.id, nm, p.avatar, p.createdAt⟩ := rfl
  have hst : (updateProfile st i { name := some nm }).1.doc =
      some { loadProfilesData st with
              profiles := mapSet (loadProfilesData st).profiles i
                ⟨p.id, nm, p.avatar, p.createdAt⟩ } := by
    simp [updateProfile, hp, Store.save, hok, hmerge]
  refine ⟨⟨?_, ?_, ?_⟩, ?_⟩
  · simp [updateProfile, hp, hmerge]
  · simp only [loadProfilesData, Store.load, hst, Option.getD_some]
    exact mapGet_mapSet_self (loadProfilesData st).profiles i
      ⟨p.id, nm, p.avatar, p.createdAt⟩
  · intro k hk
    simp only [loadProfilesData, Store.load, hst, Option.getD_some]
    exact mapGet_mapSet_ne (loadProfilesData st).profiles _ hk
  · intro st' j u hj
    simp only [updateProfile, hj]

/-- C9 witness: renaming `p1` to `New` on the demo store updates exactly that
profile's name, keeps its other fields, and leaves `p2` untouched; an unknown
id yields the sentinel. -/
theorem c9_updateProfile_name_roundtrip_witness :
    (updateProfile demoProfilesStore "p1" { name := some "New" }).2 =
      some ⟨"p1", "New", "U", "t0"⟩ ∧
    mapGet (loadProfilesData
        (updateProfile demoProfilesStore "p1"
          { name := some "New" }).1).profiles "p2" =
      some ⟨"p2", "Bea", "V", "t1"⟩ ∧
    (updateProfile demoProfilesStore "p9" { name := some "New" }).2 = none := by
  have h := c9_updateProfile_name_roundtrip demoProfilesStore "p1" "New"
    ⟨"p1", "Amara", "U", "t0"⟩ rfl (by decide)
  refine ⟨h.1.1, ?_, ?_⟩
  · rw [h.1.2.2 "p2" (by decide)]
    decide
  · rw [h.2 demoProfilesStore "p9" { name := some "New" } (by decide)]

/-- C10: `updateProfile` does not protect the `id` field: updating an existing
profile with `{id: otherId}` succeeds, and afterwards the profile stored
under the original key has an `id` field equal to `otherId`, different from
its collection key — the identity-equals-key invariant is broken. -/
theorem c10_updateProfile_id_unprotected :
    ∀ (st : Store ProfilesData) (i other : String) (p : Profile),
      st.saveFails = false →
      mapGet (loadProfilesData st).profiles i = some p →
      other ≠ i →
      (updateProfile st i { id := some other }).2 =
        some ⟨other, p.name, p.avatar, p.createdAt⟩ ∧
      mapGet (loadProfilesData
          (updateProfile st i { id := some other }).1).profiles i =
        some ⟨other, p.name, p.avatar, p.createdAt⟩ ∧
      (⟨other, p.name, p.avatar, p.createdAt⟩ : Profile).id ≠ i := by
  intro st i other p hok hp hne
  have hmerge : mergeProfile p { id := some other } =
      ⟨other, p.name, p.avatar, p.createdAt⟩ := rfl
  have hst : (updateProfile st i { id := some other }).1.doc =
      some { loadProfilesData st with
              profiles := mapSet (loadProfilesData st).profiles i
                ⟨other, p.name, p.avatar, p.createdAt⟩ } := by
    simp [updateProfile, hp, Store.save, hok, hmerge]
  refine ⟨?_, ?_, hne⟩
  · simp [updateProfile, hp, hmerge]
  · simp only [loadProfilesData, Store.load, hst, Option.getD_some]
    exact mapGet_mapSet_self (loadProfilesData st).profiles i
      ⟨other, p.name, p.avatar, p.createdAt⟩

/-- C10 witness: on the demo store, `updateProfile("p1", {id:"p2"})` leaves a
profile stored under key `p1` whose `id` field is `p2`. -/
theorem c10_updateProfile_id_unprotected_witness :
    mapGet (loadProfilesData
        (updateProfile demoProfilesStore "p1"
          { id := some "p2" }).1).profiles "p1" =
      some ⟨"p2", "Amara", "U", "t0"⟩ := by
  exact (c10_updateProfile_id_unprotected demoProfilesStore "p1" "p2"
    ⟨"p1", "Amara", "U", "t0"⟩ rfl (by decide) (by decide)).2.1

/- ─────────────────── Progress store claims (C4, C6) ──────────────────────── -/

theorem if_gt_eq_max (a b : Nat) : (if b > a then b else a) = max a b := by
  rcases le_or_lt b a with h | h
  · rw [if_neg (not_lt.mpr h), Nat.max_eq_left h]
  · rw [if_pos h, Nat.max_eq_right (le_of_lt h)]

theorem applyUpdate_fullUpdate (r r1 : ProgressRec) :
    applyUpdate r (fullUpdate r1) = r1 := by
  simp [applyUpdate, fullUpdate]

theorem updateGameProgress_doc {st : Store ProgressData} {p g : String}
    {u : ProgressUpdate} {now : String} (h : st.saveFails = false) :
    (updateGameProgress st p g u now).1.doc =
      some { loadProgressData st with
              profiles := mapSet (loadProgressData st).profiles p
                (mapSet ((mapGet (loadProgressData st).profiles p).getD [])
                  g (updateGameProgress st p g u now).2) } := by
  simp [updateGameProgress, Store.save, h]

theorem updateGameProgress_saveFails (st : Store ProgressData) (p g : String)
    (u : ProgressUpdate) (now : String) :
    (updateGameProgress st p g u now).1.saveFails = st.saveFails := by
  simp only [updateGameProgress, Store.save]
  by_cases h : st.saveFails = true <;> simp [h]

theorem getGameProgress_after_update {st : Store ProgressData} {p g : String}
    {u : ProgressUpdate} {now : String} (h : st.saveFails = false) :
    getGameProgress (updateGameProgress st p g u now).1 p g =
      (updateGameProgress st p g u now).2 := by
  simp only [getGameProgress, loadProgressData, Store.load,
    updateGameProgress_doc h, Option.getD_some, mapGet_mapSet_self]

theorem rawEntry_after_update {st : Store ProgressData} {p g : String}
    {u : ProgressUpdate} {now : String} (h : st.saveFails = false) :
    rawEntry (updateGameProgress st p g u now).1 p g =
      some (updateGameProgress st p g u now).2 := by
  simp only [rawEntry, loadProgressData, Store.load,
    updateGameProgress_doc h, Option.getD_some, mapGet_mapSet_self]

theorem getGameProgress_eq_rawEntry (st : Store ProgressData)
    (p g : String) :
    getGameProgress st p g = (rawEntry st p g).getD makeDefault := by
  unfold getGameProgress rawEntry
  cases mapGet (loadProgressData st).profiles p <;> rfl

theorem recordSession_record (st : Store ProgressData) (p g : String)
    (lvl : Nat) (now : String) :
    (recordSession st p g lvl now).2 =
      ⟨(getGameProgress st p g).sessionsPlayed + 1, lvl,
       if lvl > (getGameProgress st p g).bestLevel then lvl
         else (getGameProgress st p g).bestLevel,
       some now, (getGameProgress st p g).custom⟩ := by
  simp only [recordSession, updateGameProgress, applyUpdate_fullUpdate]

theorem getGameProgress_after_recordSession {st : Store ProgressData}
    {p g : String} {lvl : Nat} {now : String} (h : st.saveFails = false) :
    getGameProgress (recordSession st p g lvl now).1 p g =
      ⟨(getGameProgress st p g).sessionsPlayed + 1, lvl,
       if lvl > (getGameProgress st p g).bestLevel then lvl
         else (getGameProgress st p g).bestLevel,
       some now, (getGameProgress st p g).custom⟩ := by
  rw [← recordSession_record st p g lvl now]
  simp only [recordSession]
  exact getGameProgress_after_update h

theorem recordSession_saveFails (st : Store ProgressData) (p g : String)
    (lvl : Nat) (now : String) :
    (recordSession st p g lvl now).1.saveFails = st.saveFails := by
  simp only [recordSession]
  exact updateGameProgress_saveFails st p g _ now

/-- C4: `recordSession` returns a record with `sessionsPlayed` incremented by
one, `currentLevel` set to the given level, and `bestLevel` raised to the
maximum of the old best and the level; consequently, from any state where the
stored best level is at most 3 and saves succeed, `recordSession(p, g, 3)`
followed by `recordSession(p, g, 2)` leaves `bestLevel = 3` and
`currentLevel = 2`. -/
theorem c4_recordSession_levels :
    (∀ (st : Store ProgressData) (p g : String) (lvl : Nat) (now : String),
      (recordSession st p g lvl now).2 =
        ⟨(getGameProgress st p g).sessionsPlayed + 1, lvl,
         max (getGameProgress st p g).bestLevel lvl,
         some now, (getGameProgress st p g).custom⟩) ∧
    (∀ (st : Store ProgressData) (p g now1 now2 : String),
      st.saveFails = false →
      (getGameProgress st p g).bestLevel ≤ 3 →
      (getGameProgress
          (recordSession (recordSession st p g 3 now1).1 p g 2 now2).1
          p g).bestLevel = 3 ∧
      (getGameProgress
          (recordSession (recordSession st p g 3 now1).1 p g 2 now2).1
          p g).currentLevel = 2) := by
  constructor
  · intro st p g lvl now
    rw [recordSession_record st p g lvl now, if_gt_eq_max]
  · intro st p g now1 now2 hok hbest
    have h1 : getGameProgress (recordSession st p g 3 now1).1 p g =
        ⟨(getGameProgress st p g).sessionsPlayed + 1, 3,
         if 3 > (getGameProgress st p g).bestLevel then 3
           else (getGameProgress st p g).bestLevel,
         some now1, (getGameProgress st p g).custom⟩ :=
      getGameProgress_after_recordSession hok
    have hok1 : (recordSession st p g 3 now1).1.saveFails = false := by
      rw [recordSession_saveFails]; exact hok
    have h2 := @getGameProgress_after_recordSession
      (recordSession st p g 3 now1).1 p g 2 now2 hok1
    rw [h1] at h2
    have hb1 : (if 3 > (getGameProgress st p g).bestLevel then 3
        else (getGameProgress st p g).bestLevel) = 3 := by
      split <;> omega
    simp only [hb1] at h2
    rw [h2]
    exact ⟨by norm_num, rfl⟩

/-- C4 witness: on the empty progress store, `recordSession(p, g, 3)` then
`recordSession(p, g, 2)` leaves `bestLevel = 3` and `currentLevel = 2`, and a
single call returns the incremented record. -/
theorem c4_recordSession_levels_witness :
    (recordSession demoProgressStore "p1" "g1" 3 "t1").2 =
      ⟨1, 3, 3, some "t1", []⟩ ∧
    (getGameProgress
        (recordSession (recordSession demoProgressStore "p1" "g1" 3 "t1").1
          "p1" "g1" 2 "t2").1
        "p1" "g1").bestLevel = 3 ∧
    (getGameProgress
        (recordSession (recordSession demoProgressStore "p1" "g1" 3 "t1").1
          "p1" "g1" 2 "t2").1
        "p1" "g1").currentLevel = 2 := by
  refine ⟨?_, (c4_recordSession_levels.2 demoProgressStore "p1" "g1" "t1" "t2"
    rfl (by decide)).1,
    (c4_recordSession_levels.2 demoProgressStore "p1" "g1" "t1" "t2"
    rfl (by decide)).2⟩
  rw [c4_recordSession_levels.1 demoProgressStore "p1" "g1" 3 "t1"]
  decide

/-- C6: on a pair (profileId, gameId) with no stored entry, `getGameProgress`
returns the default record `⟨0, 1, 1, none, {}⟩`; the read is modelled as a
pure function of the store because the source performs no save, so the
persisted document is untouched and the raw entry stays absent until the
first write — after which (`updateGameProgress`, saves succeeding) the raw
entry exists. -/
theorem c6_getGameProgress_default :
    ∀ (st : Store ProgressData) (p g : String),
      rawEntry st p g = none →
      getGameProgress st p g = makeDefault ∧
      (∀ (u : ProgressUpdate) (now : String), st.saveFails = false →
        rawEntry (updateGameProgress st p g u now).1 p g =
          some (updateGameProgress st p g u now).2) := by
  intro st p g h
  constructor
  · rw [getGameProgress_eq_rawEntry, h]
    rfl
  · intro u now hok
    exact rawEntry_after_update hok

/-- C6 witness: the empty progress store has no entry for (p1, g1),
`getGameProgress` returns the default record, and after one
`updateGameProgress` the raw entry exists. -/
theorem c6_getGameProgress_default_witness :
    getGameProgress demoProgressStore "p1" "g1" = makeDefault ∧
    rawEntry (updateGameProgress demoProgressStore "p1" "g1"
        { currentLevel := some 2 } "t1").1 "p1" "g1" =
      some (updateGameProgress demoProgressStore "p1" "g1"
        { currentLevel := some 2 } "t1").2 := by
  refine ⟨(c6_getGameProgress_default demoProgressStore "p1" "g1" rfl).1, ?_⟩
  exact (c6_getGameProgress_default demoProgressStore "p1" "g1" rfl).2
    { currentLevel := some 2 } "t1" rfl

end Amara
